import Mathlib

/-!
# The boundary accessor layer of game-music-emu.js

A shallow embedding of `gme/JS_Glue.h`: eleven zero-argument C functions
`gme_get_<format>_type`, each of which returns the value of the global
`gme_<format>_type` owned by the emulation library.

The globals and the record they point to are declared in `gme.h`, which is not
among the sources, so the registry is an explicit state value that every
accessor receives and hands back.
-/

namespace JSGlue

/-! ## Data model -/

/-- The fixed set of supported formats, in the order in which `JS_Glue.h`
defines their accessors. -/
inductive Format
  | ay | gbs | gym | hes | kss | nsf | nsfe | sap | spc | vgm | vgz
  deriving DecidableEq, Repr, Fintype

/-- All formats, in source order. -/
def Format.all : List Format :=
  [.ay, .gbs, .gym, .hes, .kss, .nsf, .nsfe, .sap, .spc, .vgm, .vgz]

/-- The short name of a format, as it occurs inside the identifiers
`gme_<tag>_type` and `gme_get_<tag>_type`. -/
def Format.tag : Format → String
  | .ay => "ay"
  | .gbs => "gbs"
  | .gym => "gym"
  | .hes => "hes"
  | .kss => "kss"
  | .nsf => "nsf"
  | .nsfe => "nsfe"
  | .sap => "sap"
  | .spc => "spc"
  | .vgm => "vgm"
  | .vgz => "vgz"

/-- A type token: the C type `gme_type_t`, a pointer to a constant descriptor.
It is modelled by the address it holds; the null pointer is address `0`. -/
abbrev gme_type_t := Nat

/-- Modelled from the spec: the descriptor record a token points to (the C
struct `gme_type_t_` of `gme.h`, which is not among the sources). The spec
lists a tag or extension, a human-readable name, a maximum voice count and a
pointer to the format-specific constructor. -/
structure gme_type_t_ where
  tag : String
  name : String
  voices : Nat
  ctor : Nat
  deriving DecidableEq, Repr

/-- Modelled from the spec: the state owned by the external registry, which
`gme.h` (not among the sources) declares. It holds the eleven global token
variables `gme_ay_type` ... `gme_vgz_type` that `JS_Glue.h` reads, and the
memory in which the descriptors live, as a map from addresses to records. -/
structure Registry where
  gme_ay_type : gme_type_t
  gme_gbs_type : gme_type_t
  gme_gym_type : gme_type_t
  gme_hes_type : gme_type_t
  gme_kss_type : gme_type_t
  gme_nsf_type : gme_type_t
  gme_nsfe_type : gme_type_t
  gme_sap_type : gme_type_t
  gme_spc_type : gme_type_t
  gme_vgm_type : gme_type_t
  gme_vgz_type : gme_type_t
  heap : Nat → Option gme_type_t_

/-- The registry's token of a format: the value of the global
`gme_<format>_type`. -/
def Registry.token (s : Registry) : Format → gme_type_t
  | .ay => s.gme_ay_type
  | .gbs => s.gme_gbs_type
  | .gym => s.gme_gym_type
  | .hes => s.gme_hes_type
  | .kss => s.gme_kss_type
  | .nsf => s.gme_nsf_type
  | .nsfe => s.gme_nsfe_type
  | .sap => s.gme_sap_type
  | .spc => s.gme_spc_type
  | .vgm => s.gme_vgm_type
  | .vgz => s.gme_vgz_type

/-- The registry's guarantee that its eleven descriptors are pairwise distinct
objects: no two formats share a token. -/
def Registry.distinct (s : Registry) : Prop :=
  ∀ f g : Format, s.token f = s.token g → f = g

/-- The registry is initialised: every one of its eleven tokens is non-null. -/
def Registry.initialised (s : Registry) : Prop :=
  ∀ f : Format, s.token f ≠ 0

/-! ## The accessors of `JS_Glue.h`

Each function body is a single `return gme_<format>_type;`. A call is modelled
as a function from the registry state before the call to the returned token
and the registry state after it. -/

/-- The C function `gme_type_t gme_get_ay_type() { return gme_ay_type; }`. -/
def gme_get_ay_type (s : Registry) : gme_type_t × Registry :=
  (s.gme_ay_type, s)

/-- The C function `gme_type_t gme_get_gbs_type() { return gme_gbs_type; }`. -/
def gme_get_gbs_type (s : Registry) : gme_type_t × Registry :=
  (s.gme_gbs_type, s)

/-- The C function `gme_type_t gme_get_gym_type() { return gme_gym_type; }`. -/
def gme_get_gym_type (s : Registry) : gme_type_t × Registry :=
  (s.gme_gym_type, s)

/-- The C function `gme_type_t gme_get_hes_type() { return gme_hes_type; }`. -/
def gme_get_hes_type (s : Registry) : gme_type_t × Registry :=
  (s.gme_hes_type, s)

/-- The C function `gme_type_t gme_get_kss_type() { return gme_kss_type; }`. -/
def gme_get_kss_type (s : Registry) : gme_type_t × Registry :=
  (s.gme_kss_type, s)

/-- The C function `gme_type_t gme_get_nsf_type() { return gme_nsf_type; }`. -/
def gme_get_nsf_type (s : Registry) : gme_type_t × Registry :=
  (s.gme_nsf_type, s)

/-- The C function `gme_type_t gme_get_nsfe_type() { return gme_nsfe_type; }`. -/
def gme_get_nsfe_type (s : Registry) : gme_type_t × Registry :=
  (s.gme_nsfe_type, s)

/-- The C function `gme_type_t gme_get_sap_type() { return gme_sap_type; }`. -/
def gme_get_sap_type (s : Registry) : gme_type_t × Registry :=
  (s.gme_sap_type, s)

/-- The C function `gme_type_t gme_get_spc_type() { return gme_spc_type; }`. -/
def gme_get_spc_type (s : Registry) : gme_type_t × Registry :=
  (s.gme_spc_type, s)

/-- The C function `gme_type_t gme_get_vgm_type() { return gme_vgm_type; }`. -/
def gme_get_vgm_type (s : Registry) : gme_type_t × Registry :=
  (s.gme_vgm_type, s)

/-- The C function `gme_type_t gme_get_vgz_type() { return gme_vgz_type; }`. -/
def gme_get_vgz_type (s : Registry) : gme_type_t × Registry :=
  (s.gme_vgz_type, s)

/-- The function definitions of `JS_Glue.h`, one constructor per definition, in
source order. Every one of them carries `EMSCRIPTEN_KEEPALIVE` and sits inside
the C-linkage block, so each is an exported symbol. -/
inductive Accessor
  | gme_get_ay_type | gme_get_gbs_type | gme_get_gym_type | gme_get_hes_type
  | gme_get_kss_type | gme_get_nsf_type | gme_get_nsfe_type | gme_get_sap_type
  | gme_get_spc_type | gme_get_vgm_type | gme_get_vgz_type
  deriving DecidableEq, Repr, Fintype

/-- All accessor definitions, in source order. -/
def Accessor.all : List Accessor :=
  [.gme_get_ay_type, .gme_get_gbs_type, .gme_get_gym_type, .gme_get_hes_type,
   .gme_get_kss_type, .gme_get_nsf_type, .gme_get_nsfe_type, .gme_get_sap_type,
   .gme_get_spc_type, .gme_get_vgm_type, .gme_get_vgz_type]

/-- The identifier under which an accessor is defined and, the block having C
linkage, exported. -/
def Accessor.symbol : Accessor → String
  | .gme_get_ay_type => "gme_get_ay_type"
  | .gme_get_gbs_type => "gme_get_gbs_type"
  | .gme_get_gym_type => "gme_get_gym_type"
  | .gme_get_hes_type => "gme_get_hes_type"
  | .gme_get_kss_type => "gme_get_kss_type"
  | .gme_get_nsf_type => "gme_get_nsf_type"
  | .gme_get_nsfe_type => "gme_get_nsfe_type"
  | .gme_get_sap_type => "gme_get_sap_type"
  | .gme_get_spc_type => "gme_get_spc_type"
  | .gme_get_vgm_type => "gme_get_vgm_type"
  | .gme_get_vgz_type => "gme_get_vgz_type"

/-- Calling an accessor: runs the body of the function of that name. -/
def Accessor.call : Accessor → Registry → gme_type_t × Registry
  | .gme_get_ay_type => JSGlue.gme_get_ay_type
  | .gme_get_gbs_type => JSGlue.gme_get_gbs_type
  | .gme_get_gym_type => JSGlue.gme_get_gym_type
  | .gme_get_hes_type => JSGlue.gme_get_hes_type
  | .gme_get_kss_type => JSGlue.gme_get_kss_type
  | .gme_get_nsf_type => JSGlue.gme_get_nsf_type
  | .gme_get_nsfe_type => JSGlue.gme_get_nsfe_type
  | .gme_get_sap_type => JSGlue.gme_get_sap_type
  | .gme_get_spc_type => JSGlue.gme_get_spc_type
  | .gme_get_vgm_type => JSGlue.gme_get_vgm_type
  | .gme_get_vgz_type => JSGlue.gme_get_vgz_type

/-- The accessor of a format: the function whose identifier carries the
format's tag. -/
def Format.accessor : Format → Accessor
  | .ay => .gme_get_ay_type
  | .gbs => .gme_get_gbs_type
  | .gym => .gme_get_gym_type
  | .hes => .gme_get_hes_type
  | .kss => .gme_get_kss_type
  | .nsf => .gme_get_nsf_type
  | .nsfe => .gme_get_nsfe_type
  | .sap => .gme_get_sap_type
  | .spc => .gme_get_spc_type
  | .vgm => .gme_get_vgm_type
  | .vgz => .gme_get_vgz_type

/-- A sequence of accessor calls made one after the other by one process: each
call starts in the state the previous one left. The result is the list of the
returned tokens, in call order, and the final registry state. -/
def run : List Accessor → Registry → List gme_type_t × Registry
  | [], s => ([], s)
  | a :: rest, s =>
    let r := a.call s
    let rs := run rest r.2
    (r.1 :: rs.1, rs.2)

/-! ## Sample registries -/

/-- A descriptor record with the given tag and voice count. -/
def sampleDescriptor (tag : String) (voices : Nat) : gme_type_t_ :=
  ⟨tag, tag, voices, 4096⟩

/-- An initialised registry: eleven descriptors at eleven different non-null
addresses. -/
def sampleRegistry : Registry where
  gme_ay_type := 1024
  gme_gbs_type := 1048
  gme_gym_type := 1072
  gme_hes_type := 1096
  gme_kss_type := 1120
  gme_nsf_type := 1144
  gme_nsfe_type := 1168
  gme_sap_type := 1192
  gme_spc_type := 1216
  gme_vgm_type := 1240
  gme_vgz_type := 1264
  heap := fun p =>
    if p = 1024 then some (sampleDescriptor "ay" 3)
    else if p = 1144 then some (sampleDescriptor "nsf" 5)
    else if p = 1216 then some (sampleDescriptor "spc" 8)
    else none

/-- A registry that has the same `nsf` token as `sampleRegistry` and differs
from it in the record behind that token and in every other token. -/
def otherRegistry : Registry where
  gme_ay_type := 8
  gme_gbs_type := 16
  gme_gym_type := 24
  gme_hes_type := 32
  gme_kss_type := 40
  gme_nsf_type := 1144
  gme_nsfe_type := 48
  gme_sap_type := 56
  gme_spc_type := 64
  gme_vgm_type := 72
  gme_vgz_type := 80
  heap := fun p =>
    if p = 1144 then some ⟨"xyz", "something else", 0, 0⟩ else none

/-! ## Lemmas on the embedding -/

theorem call_fst (f : Format) (s : Registry) : (f.accessor.call s).1 = s.token f := by
  cases f <;> rfl

theorem call_snd (a : Accessor) (s : Registry) : (a.call s).2 = s := by
  cases a <;> rfl

theorem accessor_surjective (a : Accessor) : ∃ f : Format, f.accessor = a := by
  cases a
  · exact ⟨.ay, rfl⟩
  · exact ⟨.gbs, rfl⟩
  · exact ⟨.gym, rfl⟩
  · exact ⟨.hes, rfl⟩
  · exact ⟨.kss, rfl⟩
  · exact ⟨.nsf, rfl⟩
  · exact ⟨.nsfe, rfl⟩
  · exact ⟨.sap, rfl⟩
  · exact ⟨.spc, rfl⟩
  · exact ⟨.vgm, rfl⟩
  · exact ⟨.vgz, rfl⟩

theorem run_snd (calls : List Accessor) (s : Registry) : (run calls s).2 = s := by
  induction calls generalizing s with
  | nil => rfl
  | cons a rest ih =>
    show (run rest (a.call s).2).2 = s
    rw [ih, call_snd]

theorem run_fst (calls : List Accessor) (s : Registry) :
    (run calls s).1 = calls.map (fun a => (a.call s).1) := by
  induction calls generalizing s with
  | nil => rfl
  | cons a rest ih =>
    show (a.call s).1 :: (run rest (a.call s).2).1 = _
    rw [ih, call_snd]
    rfl

theorem getElem?_at_length {α : Type} (l r : List α) (x : α) :
    (l ++ x :: r)[l.length]? = some x := by
  induction l with
  | nil => simp
  | cons y l ih => simpa using ih

theorem sampleRegistry_distinct : sampleRegistry.distinct := by
  intro f g h
  cases f <;> cases g <;> first | rfl | exact absurd h (by decide)

theorem sampleRegistry_initialised : sampleRegistry.initialised := by
  intro f
  cases f <;> decide

/-! ## The claims -/

/-- C1: for every format the accessor of that format returns exactly the
registry's token of that same format, and, the registry's descriptors being
pairwise distinct, the token of no other format. In particular
`gme_get_vgz_type` returns `gme_vgz_type` and not `gme_vgm_type`, and
`gme_get_nsfe_type` returns `gme_nsfe_type` and not `gme_nsf_type`. -/
theorem accessor_returns_own_token (s : Registry) (f : Format) :
    (f.accessor.call s).1 = s.token f ∧
    (s.distinct → ∀ g : Format, g ≠ f → (f.accessor.call s).1 ≠ s.token g) ∧
    (gme_get_vgz_type s).1 = s.gme_vgz_type ∧
    (gme_get_nsfe_type s).1 = s.gme_nsfe_type ∧
    (s.distinct → (gme_get_vgz_type s).1 ≠ s.gme_vgm_type ∧
      (gme_get_nsfe_type s).1 ≠ s.gme_nsf_type) := by
  refine ⟨call_fst f s, ?_, rfl, rfl, ?_⟩
  · intro hd g hg h
    rw [call_fst] at h
    exact hg (hd g f h.symm)
  · intro hd
    constructor
    · intro h
      exact absurd (hd .vgz .vgm h) (by decide)
    · intro h
      exact absurd (hd .nsfe .nsf h) (by decide)

/-- Witness of C1 on the sample registry: the `vgz` accessor returns the `vgz`
token, address 1264, which is not the `vgm` token. -/
theorem accessor_returns_own_token_witness :
    sampleRegistry.distinct ∧
    (Format.vgz.accessor.call sampleRegistry).1 = 1264 ∧
    (Format.vgz.accessor.call sampleRegistry).1 ≠ sampleRegistry.token .vgm :=
  ⟨sampleRegistry_distinct,
   (accessor_returns_own_token sampleRegistry .vgz).1,
   (accessor_returns_own_token sampleRegistry .vgz).2.1 sampleRegistry_distinct .vgm
     (by decide)⟩

/-- C2: when the registry's eleven descriptors are pairwise distinct, any two
distinct accessors return different tokens, and the map from a format to the
token its accessor returns is injective. -/
theorem accessors_pairwise_distinct (s : Registry) (hd : s.distinct) :
    (∀ a b : Accessor, a ≠ b → (a.call s).1 ≠ (b.call s).1) ∧
    Function.Injective (fun f : Format => (f.accessor.call s).1) := by
  constructor
  · intro a b hab h
    obtain ⟨f, rfl⟩ := accessor_surjective a
    obtain ⟨g, rfl⟩ := accessor_surjective b
    rw [call_fst, call_fst] at h
    exact hab (congrArg Format.accessor (hd f g h))
  · intro f g h
    simp only [call_fst] at h
    exact hd f g h

/-- Witness of C2 on the sample registry: `gme_get_nsf_type` and
`gme_get_nsfe_type` return different tokens. -/
theorem accessors_pairwise_distinct_witness :
    sampleRegistry.distinct ∧
    (Accessor.gme_get_nsf_type.call sampleRegistry).1 ≠
      (Accessor.gme_get_nsfe_type.call sampleRegistry).1 :=
  ⟨sampleRegistry_distinct,
   (accessors_pairwise_distinct sampleRegistry sampleRegistry_distinct).1
     .gme_get_nsf_type .gme_get_nsfe_type (by decide)⟩

/-- C3: in any sequence of accessor calls made by one process, two calls of the
same accessor, whatever calls come before, between and after them, return the
same token, namely the one a single call on the starting registry returns; the
result of a call does not depend on the calls made before it. -/
theorem accessor_calls_stable (a : Accessor) (s : Registry) (pre mid post : List Accessor) :
    (run (pre ++ a :: (mid ++ a :: post)) s).1[pre.length]? = some (a.call s).1 ∧
    (run (pre ++ a :: (mid ++ a :: post)) s).1[pre.length + 1 + mid.length]? =
      some (a.call s).1 ∧
    (a.call (run pre s).2).1 = (a.call s).1 := by
  have h : pre ++ a :: (mid ++ a :: post) = (pre ++ a :: mid) ++ a :: post := by simp
  have hl : pre.length + 1 + mid.length = (pre ++ a :: mid).length := by simp; omega
  refine ⟨?_, ?_, ?_⟩
  · rw [run_fst, List.getElem?_map, getElem?_at_length]
    rfl
  · rw [run_fst, List.getElem?_map, h, hl, getElem?_at_length]
    rfl
  · rw [run_snd]

/-- C4: the accessors defined by the layer correspond one-to-one with the
eleven formats ay, gbs, gym, hes, kss, nsf, nsfe, sap, spc, vgm, vgz: there are
eleven accessors under eleven different names, every format has exactly one
accessor returning its token, and every accessor returns the token of exactly
one format of the list. -/
theorem accessors_match_formats :
    Format.all.map Format.tag =
      ["ay", "gbs", "gym", "hes", "kss", "nsf", "nsfe", "sap", "spc", "vgm", "vgz"] ∧
    (∀ f : Format, f ∈ Format.all) ∧
    Accessor.all.length = 11 ∧ Accessor.all.Nodup ∧ (∀ a : Accessor, a ∈ Accessor.all) ∧
    (Accessor.all.map Accessor.symbol).Nodup ∧
    Accessor.all = Format.all.map Format.accessor ∧
    (∀ f : Format, ∃! a : Accessor, ∀ s : Registry, (a.call s).1 = s.token f) ∧
    (∀ a : Accessor, ∃! f : Format, ∀ s : Registry, (a.call s).1 = s.token f) := by
  refine ⟨by decide, ?_, rfl, by decide, ?_, by decide, rfl, ?_, ?_⟩
  · intro f
    cases f <;> decide
  · intro a
    cases a <;> decide
  · intro f
    refine ⟨f.accessor, call_fst f, ?_⟩
    intro b hb
    obtain ⟨g, rfl⟩ := accessor_surjective b
    have h := hb sampleRegistry
    rw [call_fst] at h
    rw [sampleRegistry_distinct g f h]
  · intro a
    obtain ⟨f, rfl⟩ := accessor_surjective a
    refine ⟨f, call_fst f, ?_⟩
    intro g hg
    have h := hg sampleRegistry
    rw [call_fst] at h
    exact (sampleRegistry_distinct f g h).symm

/-- C5, as stated, fails: the accessor of the format `ay` is exported under the
identifier `gme_get_ay_type`, which is not `get_ay_type`. -/
theorem accessor_symbol_not_get_format_type :
    Format.ay.accessor.symbol = "gme_get_ay_type" ∧
    Format.ay.accessor.symbol ≠ "get_" ++ Format.ay.tag ++ "_type" := by
  decide

/-- C5, amended: every exported accessor is named exactly
`gme_get_<format>_type`, where `<format>` is the format whose token it returns;
the exported identifiers are precisely `gme_get_ay_type`, `gme_get_gbs_type`,
`gme_get_gym_type`, `gme_get_hes_type`, `gme_get_kss_type`, `gme_get_nsf_type`,
`gme_get_nsfe_type`, `gme_get_sap_type`, `gme_get_spc_type`, `gme_get_vgm_type`
and `gme_get_vgz_type`. -/
theorem accessor_symbol_gme_get_format_type :
    (∀ a : Accessor, ∃ f : Format, (∀ s : Registry, (a.call s).1 = s.token f) ∧
      a.symbol = "gme_get_" ++ f.tag ++ "_type") ∧
    (∀ f : Format, f.accessor.symbol = "gme_get_" ++ f.tag ++ "_type") ∧
    Accessor.all.map Accessor.symbol =
      ["gme_get_ay_type", "gme_get_gbs_type", "gme_get_gym_type", "gme_get_hes_type",
       "gme_get_kss_type", "gme_get_nsf_type", "gme_get_nsfe_type", "gme_get_sap_type",
       "gme_get_spc_type", "gme_get_vgm_type", "gme_get_vgz_type"] := by
  have hs : ∀ f : Format, f.accessor.symbol = "gme_get_" ++ f.tag ++ "_type" := by
    intro f
    cases f <;> decide
  refine ⟨?_, hs, by decide⟩
  intro a
  obtain ⟨f, rfl⟩ := accessor_surjective a
  exact ⟨f, call_fst f, hs f⟩

/-- C6: no accessor has a failure mode. Every accessor, called on any registry
state, returns a token, which is the registry's token of some format; when the
registry is initialised, that is when all its eleven tokens are non-null, the
returned token is non-null. -/
theorem accessor_total_nonnull (a : Accessor) (s : Registry) :
    (∃ f : Format, a.call s = (s.token f, s)) ∧
    (s.initialised → (a.call s).1 ≠ 0) := by
  obtain ⟨f, rfl⟩ := accessor_surjective a
  constructor
  · exact ⟨f, by cases f <;> rfl⟩
  · intro hi
    rw [call_fst]
    exact hi f

/-- Witness of C6 on the sample registry, which is initialised:
`gme_get_nsf_type` returns a non-null token. -/
theorem accessor_total_nonnull_witness :
    sampleRegistry.initialised ∧ (Accessor.gme_get_nsf_type.call sampleRegistry).1 ≠ 0 :=
  ⟨sampleRegistry_initialised,
   (accessor_total_nonnull .gme_get_nsf_type sampleRegistry).2 sampleRegistry_initialised⟩

/-- C7: accessors have no side effects. With the registry, its eleven tokens
and the descriptor memory, as explicit state, every accessor call leaves the
whole state unchanged, and so does every sequence of accessor calls. -/
theorem accessor_no_side_effect (s : Registry) :
    (∀ a : Accessor, (a.call s).2 = s) ∧
    (∀ calls : List Accessor, (run calls s).2 = s) :=
  ⟨fun a => call_snd a s, fun calls => run_snd calls s⟩

/-- C9: no accessor inspects the token it forwards. Two registry states that
give a format the same token return the same token from that format's
accessor, however they differ in the descriptor behind the token, in the other
formats' tokens and in the other descriptors. -/
theorem accessor_ignores_descriptor (f : Format) (s t : Registry)
    (h : s.token f = t.token f) :
    (f.accessor.call s).1 = (f.accessor.call t).1 := by
  rw [call_fst, call_fst, h]

/-- Witness of C9: the sample registry and a registry with the same `nsf` token
but another record behind it and other tokens for the other formats; the `nsf`
accessor returns the same token in both. -/
theorem accessor_ignores_descriptor_witness :
    sampleRegistry.token .nsf = otherRegistry.token .nsf ∧
    sampleRegistry.heap 1144 ≠ otherRegistry.heap 1144 ∧
    (∀ g : Format, g ≠ .nsf → sampleRegistry.token g ≠ otherRegistry.token g) ∧
    (Format.nsf.accessor.call sampleRegistry).1 =
      (Format.nsf.accessor.call otherRegistry).1 :=
  ⟨rfl, by decide, by intro g hg; cases g <;> first | exact absurd rfl hg | decide,
   accessor_ignores_descriptor .nsf sampleRegistry otherRegistry rfl⟩

end JSGlue
